import Mathlib

/-!
Shallow embedding of the `textgrid` Rust crate (Praat TextGrid library) and
verification of its specification claims.

Modelling conventions:
- `f64` time values are modelled as `ℚ`.  The library performs no arithmetic on
  times except comparison, copying and `max`, so the ordered-field fragment of
  IEEE doubles that the code exercises on non-NaN values coincides with `ℚ`.
- Rust `&mut self` methods returning `Result<T, E>` are modelled as functions
  returning an outcome that carries the post-state both on success and on
  error (Rust keeps the mutated receiver when a method returns `Err`).
- A Rust panic (out-of-range `Vec` indexing, slice indexing, `unwrap` on
  `Err`/`None`) is modelled by the dedicated outcome `panicked`.
- `VecDeque` is a `List` whose head is the front (oldest) element;
  `push_back` appends, `pop_front` drops the head, `pop_back` drops the last.
-/

namespace TG

set_option allowUnsafeReducibility true in
attribute [semireducible] Rat.sub Rat.add Rat.mul Rat.inv

/-- Interval from src/src/types.rs: start, end, text annotation. -/
structure Interval where
  xmin : ℚ
  xmax : ℚ
  text : String
deriving DecidableEq

/-- Point from src/src/types.rs: time and mark. -/
structure Point where
  time : ℚ
  mark : String
deriving DecidableEq

/-- TierType from src/src/types.rs. -/
inductive TierType where
  | intervalTier
  | pointTier
deriving DecidableEq

/-- Tier from src/src/types.rs. -/
structure Tier where
  name : String
  tier_type : TierType
  xmin : ℚ
  xmax : ℚ
  intervals : List Interval
  points : List Point
deriving DecidableEq

/-- Change from src/src/types.rs: tagged variant recording one mutation. -/
inductive Change where
  | addTier (tier : Tier)
  | removeTier (index : Nat) (tier : Tier)
  | addInterval (tierName : String) (interval : Interval)
  | removeInterval (tierName : String) (index : Nat) (interval : Interval)
  | addPoint (tierName : String) (point : Point)
  | removePoint (tierName : String) (index : Nat) (point : Point)
  | splitInterval (tierName : String) (index : Nat) (orig left : Interval)
  | mergeIntervals (tierName : String) (before after : List Interval)
  | renameTier (oldName newName : String)
  | mergeTiers (t1 t2 newName : String) (tier : Tier)
  | adjustBounds (oldXmin oldXmax : ℚ)
  | insertSilence (tierName : String) (before after : List Interval)
deriving DecidableEq

/-- TextGrid from src/src/types.rs, including the private history state. -/
structure TextGrid where
  xmin : ℚ
  xmax : ℚ
  tiers : List Tier
  history : List Change
  redo_stack : List Change
  max_history : Nat
deriving DecidableEq

/-- Placeholder interval used with `getD` at indices already guarded in range. -/
def dInterval : Interval := ⟨0, 0, ""⟩

/-- Placeholder point used with `getD` at indices already guarded in range. -/
def dPoint : Point := ⟨0, ""⟩

/-- Placeholder tier used with `getD` at indices already guarded in range. -/
def dTier : Tier := ⟨"", .intervalTier, 0, 0, [], []⟩

/-- Outcome of a fallible `Tier` method (`&mut self` + `Result`): the tier
state is carried on both branches because Rust keeps partial mutations. -/
inductive TRes (α : Type) where
  | ok (t : Tier) (val : α)
  | err (t : Tier) (msg : String)
deriving DecidableEq

/-- Outcome of a fallible `TextGrid` method: post-state on success and on
error, and `panicked` for Rust panics. -/
inductive MOut (α : Type) where
  | ok (g : TextGrid) (val : α)
  | err (g : TextGrid) (msg : String)
  | panicked
deriving DecidableEq

/-- Interval.split from src/src/types.rs lines 132-140. -/
def Interval.split (i : Interval) (time : ℚ) : Except String (Interval × Interval) :=
  if time ≤ i.xmin ∨ i.xmax ≤ time then
    .error "Split time must be within interval bounds"
  else
    .ok (⟨i.xmin, time, i.text⟩, ⟨time, i.xmax, i.text⟩)

/-- Tier::sort_intervals from src/src/types.rs lines 273-275: Rust
`sort_by` with the `xmin` comparator is a stable sort, and every stable
sort computes the same list; `List.insertionSort` (which inserts earlier
elements in front of later key-equal ones) is that function. -/
def sort_intervals (l : List Interval) : List Interval :=
  l.insertionSort (fun a b => a.xmin ≤ b.xmin)

/-- Tier::sort_points from src/src/types.rs lines 278-280, stable sort by
`time`. -/
def sort_points (l : List Point) : List Point :=
  l.insertionSort (fun a b => a.time ≤ b.time)

/-- Tier::add_interval from src/src/types.rs lines 154-164. -/
def Tier.add_interval (t : Tier) (interval : Interval) : TRes Unit :=
  if t.tier_type ≠ .intervalTier then
    .err t "Cannot add interval to PointTier"
  else if interval.xmin < t.xmin ∨ t.xmax < interval.xmax then
    .err t "Interval out of tier bounds"
  else
    .ok { t with intervals := sort_intervals (t.intervals ++ [interval]) } ()

/-- Tier::add_point from src/src/types.rs lines 176-186. -/
def Tier.add_point (t : Tier) (point : Point) : TRes Unit :=
  if t.tier_type ≠ .pointTier then
    .err t "Cannot add point to IntervalTier"
  else if point.time < t.xmin ∨ t.xmax < point.time then
    .err t "Point out of tier bounds"
  else
    .ok { t with points := sort_points (t.points ++ [point]) } ()

/-- Tier::remove_interval from src/src/types.rs lines 198-203. -/
def Tier.remove_interval (t : Tier) (index : Nat) : TRes Interval :=
  if t.tier_type ≠ .intervalTier ∨ t.intervals.length ≤ index then
    .err t "Invalid interval removal"
  else
    .ok { t with intervals := t.intervals.eraseIdx index } (t.intervals.getD index dInterval)

/-- Tier::remove_point from src/src/types.rs lines 215-220. -/
def Tier.remove_point (t : Tier) (index : Nat) : TRes Point :=
  if t.tier_type ≠ .pointTier ∨ t.points.length ≤ index then
    .err t "Invalid point removal"
  else
    .ok { t with points := t.points.eraseIdx index } (t.points.getD index dPoint)

/-- Tier::split_interval from src/src/types.rs lines 233-242.  Note the
source removes the interval before calling `Interval::split`, so when the
split fails the removal is kept (the `?` operator propagates the error with
the receiver already mutated). -/
def Tier.split_interval (t : Tier) (index : Nat) (time : ℚ) : TRes (Interval × Interval) :=
  if t.tier_type ≠ .intervalTier ∨ t.intervals.length ≤ index then
    .err t "Invalid split operation"
  else
    let interval := t.intervals.getD index dInterval
    let t' := { t with intervals := t.intervals.eraseIdx index }
    match interval.split time with
    | .error e => .err t' e
    | .ok (left, right) =>
        .ok { t' with intervals := (t'.intervals.insertIdx index left).insertIdx (index + 1) right }
          (left, right)

/-- Tier::merge_intervals from src/src/types.rs lines 251-270. -/
def Tier.merge_intervals (t : Tier) : TRes (List Interval) :=
  if t.tier_type ≠ .intervalTier ∨ t.intervals.length ≤ 1 then
    .ok t t.intervals
  else
    let sorted := sort_intervals t.intervals
    match sorted with
    | [] => .ok { t with intervals := sorted } sorted
    | c :: rest =>
        let step := rest.foldl
          (fun (p : List Interval × Interval) next =>
            if p.2.xmax = next.xmin ∧ p.2.text = next.text then
              (p.1, { p.2 with xmax := next.xmax })
            else
              (p.1 ++ [p.2], next))
          ([], c)
        .ok { t with intervals := step.1 ++ [step.2] } sorted

/-- Tier::rename from src/src/types.rs lines 289-293. -/
def Tier.rename (t : Tier) (newName : String) : Tier × String :=
  ({ t with name := newName }, t.name)

/-- TextGrid::new from src/src/types.rs lines 350-362. -/
def TextGrid.new (xmin xmax : ℚ) : Except String TextGrid :=
  if xmax ≤ xmin then
    .error "xmin must be less than xmax"
  else
    .ok ⟨xmin, xmax, [], [], [], 100⟩

/-- TextGrid::save_change from src/src/types.rs lines 365-371: evict the
front (oldest) entry when full, push the change at the back, clear redo. -/
def save_change (g : TextGrid) (change : Change) : TextGrid :=
  let hist := if g.max_history ≤ g.history.length then g.history.drop 1 else g.history
  { g with history := hist ++ [change], redo_stack := [] }

/-- Index of the first list element satisfying the test. -/
def findIdxAux {α : Type} (p : α → Bool) : List α → Option Nat
  | [] => none
  | x :: xs => if p x then some 0 else (findIdxAux p xs).map (fun i => i + 1)

/-- Index of the first tier with the given name; models the lookup done by
TextGrid::get_tier_mut (`iter_mut().find`), which yields the first match. -/
def findTierIdx (g : TextGrid) (name : String) : Option Nat :=
  findIdxAux (fun t => t.name = name) g.tiers

/-- TextGrid::get_tier from src/src/types.rs lines 566-568. -/
def TextGrid.get_tier (g : TextGrid) (name : String) : Option Tier :=
  g.tiers.find? (fun t => t.name = name)

/-- TextGrid::add_tier from src/src/types.rs lines 523-530. -/
def add_tier (g : TextGrid) (tier : Tier) : MOut Unit :=
  if tier.xmin < g.xmin ∨ g.xmax < tier.xmax then
    .err g "Tier bounds must be within TextGrid bounds"
  else
    let g' := save_change g (.addTier tier)
    .ok { g' with tiers := g'.tiers ++ [tier] } ()

/-- TextGrid::remove_tier from src/src/types.rs lines 539-546. -/
def remove_tier (g : TextGrid) (index : Nat) : MOut Unit :=
  if g.tiers.length ≤ index then
    .err g "Tier index out of bounds"
  else
    let tier := g.tiers.getD index dTier
    let g' := { g with tiers := g.tiers.eraseIdx index }
    .ok (save_change g' (.removeTier index tier)) ()

/-- TextGrid::rename_tier from src/src/types.rs lines 578-586. -/
def rename_tier (g : TextGrid) (oldName : String) (newName : String) : MOut Unit :=
  match findTierIdx g oldName with
  | none => .err g "Tier not found"
  | some i =>
      let t := g.tiers.getD i dTier
      let renamed := t.rename newName
      let g' := { g with tiers := g.tiers.set i renamed.1 }
      .ok (save_change g' (.renameTier renamed.2 newName)) ()

/-- Sweep loop of TextGrid::merge_tiers_with_strategy (src/src/types.rs
lines 620-637): overlapping pairs go through the strategy. -/
def mergeSweep (strategy : Interval → Interval → Option Interval)
    (combined : List Interval) : List Interval :=
  match combined with
  | [] => []
  | c :: rest =>
      let step := rest.foldl
        (fun (p : List Interval × Interval) next =>
          if next.xmin < p.2.xmax then
            match strategy p.2 next with
            | some merged => (p.1, merged)
            | none => (p.1 ++ [p.2], next)
          else
            (p.1 ++ [p.2], next))
        ([], c)
      step.1 ++ [step.2]

/-- TextGrid::merge_tiers_with_strategy from src/src/types.rs lines 598-650. -/
def merge_tiers_with_strategy (g : TextGrid) (name1 name2 : String) (newName : String)
    (strategy : Interval → Interval → Option Interval) : MOut Unit :=
  match g.get_tier name1 with
  | none => .err g "First tier not found"
  | some tier1 =>
      match g.get_tier name2 with
      | none => .err g "Second tier not found"
      | some tier2 =>
          if tier1.tier_type ≠ .intervalTier ∨ tier2.tier_type ≠ .intervalTier then
            .err g "Can only merge IntervalTiers"
          else
            let combined := sort_intervals (tier1.intervals ++ tier2.intervals)
            let newIntervals := mergeSweep strategy combined
            let newTier : Tier := ⟨newName, .intervalTier, g.xmin, g.xmax, newIntervals, []⟩
            let g' := save_change g (.mergeTiers name1 name2 newName newTier)
            .ok { g' with tiers := g'.tiers ++ [newTier] } ()

/-- Default strategy of TextGrid::merge_tiers from src/src/types.rs lines 662-672. -/
def defaultMergeStrategy (current next : Interval) : Option Interval :=
  if current.text = next.text ∨ current.text = "" ∨ next.text = "" then
    some ⟨current.xmin, max current.xmax next.xmax,
      if current.text = "" then next.text else current.text⟩
  else
    none

/-- TextGrid::merge_tiers from src/src/types.rs lines 661-673. -/
def merge_tiers (g : TextGrid) (name1 name2 : String) (newName : String) : MOut Unit :=
  merge_tiers_with_strategy g name1 name2 newName defaultMergeStrategy

/-- Per-tier data check of TextGrid::adjust_bounds (src/src/types.rs lines
687-694): the outermost existing intervals and points must fit the new
bounds.  Both offending cases produce the same error message. -/
def adjustBoundsViolation (newXmin newXmax : ℚ) (t : Tier) : Bool :=
  (t.intervals ≠ [] ∧
    ((t.intervals.headD dInterval).xmin < newXmin ∨
      newXmax < (t.intervals.getLastD dInterval).xmax)) ∨
  (t.points ≠ [] ∧
    ((t.points.headD dPoint).time < newXmin ∨
      newXmax < (t.points.getLastD dPoint).time))

/-- TextGrid::adjust_bounds from src/src/types.rs lines 683-703. -/
def adjust_bounds (g : TextGrid) (newXmin newXmax : ℚ) : MOut Unit :=
  if newXmax ≤ newXmin then
    .err g "New xmin must be less than xmax"
  else if g.tiers.any (adjustBoundsViolation newXmin newXmax) then
    .err g "New bounds must encompass all tier data"
  else
    let g' := save_change g (.adjustBounds g.xmin g.xmax)
    .ok { g' with
          xmin := newXmin, xmax := newXmax,
          tiers := g'.tiers.map (fun t => { t with xmin := newXmin, xmax := newXmax }) } ()

/-- Loop body of TextGrid::insert_silence (src/src/types.rs lines
725-736): keep the interval when fully outside, otherwise push the
uncovered left and right parts. -/
def insertSilenceStep (s e : ℚ) (acc : List Interval) (interval : Interval) : List Interval :=
  if interval.xmax ≤ s ∨ e ≤ interval.xmin then
    acc ++ [interval]
  else
    acc ++ (if interval.xmin < s then [⟨interval.xmin, s, interval.text⟩] else []) ++
      (if e < interval.xmax then [⟨e, interval.xmax, interval.text⟩] else [])

/-- Per-interval pieces kept by the TextGrid::insert_silence loop,
accumulated left to right. -/
def insertSilencePieces (s e : ℚ) (l : List Interval) : List Interval :=
  l.foldl (insertSilenceStep s e) []

/-- TextGrid::insert_silence from src/src/types.rs lines 714-742. -/
def insert_silence (g : TextGrid) (tierName : String) (s e : ℚ) : MOut Unit :=
  match findTierIdx g tierName with
  | none => .err g "Tier not found"
  | some i =>
      let tier := g.tiers.getD i dTier
      if tier.tier_type ≠ .intervalTier then
        .err g "Can only insert silence in IntervalTier"
      else if s < tier.xmin ∨ tier.xmax < e ∨ e ≤ s then
        .err g "Invalid silence bounds"
      else
        let before := tier.intervals
        let newIntervals := insertSilencePieces s e before ++ [⟨s, e, ""⟩]
        let tier' := { tier with intervals := sort_intervals newIntervals }
        let g' := { g with tiers := g.tiers.set i tier' }
        .ok (save_change g' (.insertSilence tierName before newIntervals)) ()

/-- TextGrid::tier_add_interval from src/src/types.rs lines 785-790. -/
def tier_add_interval (g : TextGrid) (tierName : String) (interval : Interval) : MOut Unit :=
  match findTierIdx g tierName with
  | none => .err g "Tier not found"
  | some i =>
      match (g.tiers.getD i dTier).add_interval interval with
      | .err t e => .err { g with tiers := g.tiers.set i t } e
      | .ok t _ =>
          .ok (save_change { g with tiers := g.tiers.set i t }
            (.addInterval tierName interval)) ()

/-- TextGrid::tier_remove_interval from src/src/types.rs lines 800-805. -/
def tier_remove_interval (g : TextGrid) (tierName : String) (index : Nat) : MOut Unit :=
  match findTierIdx g tierName with
  | none => .err g "Tier not found"
  | some i =>
      match (g.tiers.getD i dTier).remove_interval index with
      | .err t e => .err { g with tiers := g.tiers.set i t } e
      | .ok t interval =>
          .ok (save_change { g with tiers := g.tiers.set i t }
            (.removeInterval tierName index interval)) ()

/-- TextGrid::tier_add_point from src/src/types.rs lines 815-820. -/
def tier_add_point (g : TextGrid) (tierName : String) (point : Point) : MOut Unit :=
  match findTierIdx g tierName with
  | none => .err g "Tier not found"
  | some i =>
      match (g.tiers.getD i dTier).add_point point with
      | .err t e => .err { g with tiers := g.tiers.set i t } e
      | .ok t _ =>
          .ok (save_change { g with tiers := g.tiers.set i t }
            (.addPoint tierName point)) ()

/-- TextGrid::tier_remove_point from src/src/types.rs lines 830-835. -/
def tier_remove_point (g : TextGrid) (tierName : String) (index : Nat) : MOut Unit :=
  match findTierIdx g tierName with
  | none => .err g "Tier not found"
  | some i =>
      match (g.tiers.getD i dTier).remove_point index with
      | .err t e => .err { g with tiers := g.tiers.set i t } e
      | .ok t point =>
          .ok (save_change { g with tiers := g.tiers.set i t }
            (.removePoint tierName index point)) ()

/-- TextGrid::tier_split_interval from src/src/types.rs lines 846-852.  The
source indexes `tier.intervals[index]` before any range check, so an
out-of-range index panics instead of producing an error value. -/
def tier_split_interval (g : TextGrid) (tierName : String) (index : Nat) (time : ℚ) : MOut Unit :=
  match findTierIdx g tierName with
  | none => .err g "Tier not found"
  | some i =>
      let tier := g.tiers.getD i dTier
      if tier.intervals.length ≤ index then
        .panicked
      else
        let orig := tier.intervals.getD index dInterval
        match tier.split_interval index time with
        | .err t e => .err { g with tiers := g.tiers.set i t } e
        | .ok t lr =>
            .ok (save_change { g with tiers := g.tiers.set i t }
              (.splitInterval tierName index orig lr.1)) ()

/-- TextGrid::tier_merge_intervals from src/src/types.rs lines 861-867. -/
def tier_merge_intervals (g : TextGrid) (tierName : String) : MOut Unit :=
  match findTierIdx g tierName with
  | none => .err g "Tier not found"
  | some i =>
      match (g.tiers.getD i dTier).merge_intervals with
      | .err t e => .err { g with tiers := g.tiers.set i t } e
      | .ok t before =>
          .ok (save_change { g with tiers := g.tiers.set i t }
            (.mergeIntervals tierName before t.intervals)) ()

/-- TextGrid::with_tiers from src/src/types.rs lines 878-881. -/
def with_tiers (g : TextGrid) (tiers : List Tier) : TextGrid :=
  { g with tiers := tiers }

/-- TextGrid::undo from src/src/types.rs lines 377-456.  The change is
popped before the case analysis, so a failing inverse still consumes it.
Out-of-range `Vec::insert`/`Vec::remove` calls in the inverse logic are
modelled as panics.  Note the point cases: undoing `AddPoint` pushes a
`RemovePoint` change on the redo stack and undoing `RemovePoint` pushes an
`AddPoint` change, unlike the interval cases which push the same variant. -/
def TextGrid.undo (g0 : TextGrid) : MOut Unit :=
  match g0.history.getLast? with
  | none => .err g0 "No more actions to undo"
  | some change =>
      let g := { g0 with history := g0.history.dropLast }
      match change with
      | .addTier tier =>
          match findTierIdx g tier.name with
          | none => .err g "Tier not found"
          | some index =>
              .ok { g with
                    tiers := g.tiers.eraseIdx index,
                    redo_stack := g.redo_stack ++ [.addTier tier] } ()
      | .removeTier index tier =>
          if g.tiers.length < index then .panicked
          else
            .ok { g with
                  tiers := g.tiers.insertIdx index tier,
                  redo_stack := g.redo_stack ++ [.removeTier index tier] } ()
      | .addInterval tierName interval =>
          match findTierIdx g tierName with
          | none => .err g "Tier not found"
          | some i =>
              let tier := g.tiers.getD i dTier
              match tier.intervals.findIdx? (fun iv => iv = interval) with
              | none => .err g "Interval not found"
              | some j =>
                  .ok { g with
                        tiers := g.tiers.set i
                          { tier with intervals := tier.intervals.eraseIdx j },
                        redo_stack := g.redo_stack ++ [.addInterval tierName interval] } ()
      | .removeInterval tierName index interval =>
          match findTierIdx g tierName with
          | none => .err g "Tier not found"
          | some i =>
              let tier := g.tiers.getD i dTier
              if tier.intervals.length < index then .panicked
              else
                .ok { g with
                      tiers := g.tiers.set i
                        { tier with intervals := tier.intervals.insertIdx index interval },
                      redo_stack :=
                        g.redo_stack ++ [.removeInterval tierName index interval] } ()
      | .addPoint tierName point =>
          match findTierIdx g tierName with
          | none => .err g "Tier not found"
          | some i =>
              let tier := g.tiers.getD i dTier
              match tier.points.findIdx? (fun p => p = point) with
              | none => .err g "Point not found"
              | some j =>
                  let removed := tier.points.getD j dPoint
                  .ok { g with
                        tiers := g.tiers.set i
                          { tier with points := tier.points.eraseIdx j },
                        redo_stack := g.redo_stack ++ [.removePoint tierName j removed] } ()
      | .removePoint tierName index point =>
          match findTierIdx g tierName with
          | none => .err g "Tier not found"
          | some i =>
              let tier := g.tiers.getD i dTier
              if tier.points.length < index then .panicked
              else
                .ok { g with
                      tiers := g.tiers.set i
                        { tier with points := tier.points.insertIdx index point },
                      redo_stack := g.redo_stack ++ [.addPoint tierName point] } ()
      | .splitInterval tierName index orig left =>
          match findTierIdx g tierName with
          | none => .err g "Tier not found"
          | some i =>
              let tier := g.tiers.getD i dTier
              if tier.intervals.length ≤ index then .panicked
              else
                let l1 := tier.intervals.eraseIdx index
                if l1.length ≤ index then .panicked
                else
                  .ok { g with
                        tiers := g.tiers.set i
                          { tier with intervals := (l1.eraseIdx index).insertIdx index orig },
                        redo_stack :=
                          g.redo_stack ++ [.splitInterval tierName index orig left] } ()
      | .mergeIntervals tierName before _ =>
          match findTierIdx g tierName with
          | none => .err g "Tier not found"
          | some i =>
              let tier := g.tiers.getD i dTier
              let after := tier.intervals
              .ok { g with
                    tiers := g.tiers.set i { tier with intervals := before },
                    redo_stack := g.redo_stack ++ [.mergeIntervals tierName before after] } ()
      | .renameTier oldName newName =>
          match findTierIdx g newName with
          | none => .err g "Tier not found"
          | some i =>
              let tier := g.tiers.getD i dTier
              .ok { g with
                    tiers := g.tiers.set i { tier with name := oldName },
                    redo_stack := g.redo_stack ++ [.renameTier oldName newName] } ()
      | .mergeTiers t1 t2 newName tier =>
          match findTierIdx g newName with
          | none => .err g "Tier not found"
          | some index =>
              .ok { g with
                    tiers := g.tiers.eraseIdx index,
                    redo_stack := g.redo_stack ++ [.mergeTiers t1 t2 newName tier] } ()
      | .adjustBounds oldXmin oldXmax =>
          .ok { g with
                xmin := oldXmin, xmax := oldXmax,
                tiers := g.tiers.map (fun t => { t with xmin := oldXmin, xmax := oldXmax }),
                redo_stack := g.redo_stack ++ [.adjustBounds g.xmin g.xmax] } ()
      | .insertSilence tierName before _ =>
          match findTierIdx g tierName with
          | none => .err g "Tier not found"
          | some i =>
              let tier := g.tiers.getD i dTier
              let after := tier.intervals
              .ok { g with
                    tiers := g.tiers.set i { tier with intervals := before },
                    redo_stack := g.redo_stack ++ [.insertSilence tierName before after] } ()

/-- TextGrid::redo from src/src/types.rs lines 462-514: re-applies the
recorded change by routing back through the forward operations (which
re-validate and call save_change, clearing the redo stack). -/
def TextGrid.redo (g0 : TextGrid) : MOut Unit :=
  match g0.redo_stack.getLast? with
  | none => .err g0 "No more actions to redo"
  | some change =>
      let g := { g0 with redo_stack := g0.redo_stack.dropLast }
      match change with
      | .addTier tier =>
          .ok (save_change { g with tiers := g.tiers ++ [tier] } (.addTier tier)) ()
      | .removeTier index tier =>
          if index < g.tiers.length ∧ (g.tiers.getD index dTier).name = tier.name then
            let removed := g.tiers.getD index dTier
            .ok (save_change { g with tiers := g.tiers.eraseIdx index }
              (.removeTier index removed)) ()
          else
            .err g "Tier not found or index mismatch for redo"
      | .addInterval tierName interval => tier_add_interval g tierName interval
      | .removeInterval tierName index _ => tier_remove_interval g tierName index
      | .addPoint tierName point => tier_add_point g tierName point
      | .removePoint tierName index _ => tier_remove_point g tierName index
      | .splitInterval tierName index _ left => tier_split_interval g tierName index left.xmax
      | .mergeIntervals tierName _ _ => tier_merge_intervals g tierName
      | .renameTier oldName newName => rename_tier g oldName newName
      | .mergeTiers _ _ _ tier => add_tier g tier
      | .adjustBounds newXmin newXmax => adjust_bounds g newXmin newXmax
      | .insertSilence tierName before after =>
          match findTierIdx g tierName with
          | none => .err g "Tier not found"
          | some i =>
              let tier := g.tiers.getD i dTier
              let g' := { g with tiers := g.tiers.set i { tier with intervals := after } }
              .ok (save_change g' (.insertSilence tierName before after)) ()

/-- Interval chain loop of validate_textgrid (src/src/validator.rs lines
81-90): `prev_xmax` starts at the tier xmin; an interval starting before it
is an overlap, and each interval needs `xmin < xmax`.  Gaps, where an
interval starts strictly after `prev_xmax`, pass. -/
def checkIntervalChain (prevXmax : ℚ) : List Interval → Except String Unit
  | [] => .ok ()
  | interval :: rest =>
      if interval.xmin < prevXmax then
        .error "Overlapping intervals detected"
      else if interval.xmax ≤ interval.xmin then
        .error "Interval xmin must be less than xmax"
      else
        checkIntervalChain interval.xmax rest

/-- Point loop of validate_textgrid (src/src/validator.rs lines 92-98). -/
def checkPoints (txmin txmax : ℚ) : List Point → Except String Unit
  | [] => .ok ()
  | point :: rest =>
      if point.time < txmin ∨ txmax < point.time then
        .error "Point time out of tier bounds"
      else
        checkPoints txmin txmax rest

/-- Per-tier body of the validate_textgrid loop (src/src/validator.rs lines
68-100). -/
def validateTier (gxmin gxmax : ℚ) (tier : Tier) : Except String Unit :=
  if tier.xmin < gxmin ∨ gxmax < tier.xmax then
    .error "Tier bounds must be within TextGrid bounds"
  else if tier.xmax ≤ tier.xmin then
    .error "Tier xmin must be less than xmax"
  else
    match tier.tier_type with
    | .intervalTier =>
        if tier.intervals = [] then .ok ()
        else checkIntervalChain tier.xmin tier.intervals
    | .pointTier => checkPoints tier.xmin tier.xmax tier.points

/-- Short-circuiting tier loop of validate_textgrid. -/
def validateTiers (gxmin gxmax : ℚ) : List Tier → Except String Unit
  | [] => .ok ()
  | tier :: rest =>
      match validateTier gxmin gxmax tier with
      | .error e => .error e
      | .ok () => validateTiers gxmin gxmax rest

/-- validate_textgrid from src/src/validator.rs lines 63-102. -/
def validate_textgrid (g : TextGrid) : Except String Unit :=
  if g.xmax ≤ g.xmin then
    .error "TextGrid xmin must be less than xmax"
  else
    validateTiers g.xmin g.xmax g.tiers

/-- Decimal digits of a fractional value in `[0, 1)`, repeatedly multiplying
by 10; stops when the remainder is zero.  The fuel bound covers every
fraction a 64-bit float can carry (at most 1074 decimal digits). -/
def fracDigits : ℚ → Nat → String
  | _, 0 => ""
  | q, fuel + 1 =>
      let q10 := q * 10
      let d := (Rat.floor q10).toNat
      let rest := q10 - (d : ℚ)
      Nat.repr d ++ (if rest = 0 then "" else fracDigits rest fuel)

/-- Model of the Rust `Display` formatting (`{}`) used for `f64` time values
by the writer: a plain decimal expansion with no exponent, exactly enough
digits to reproduce the value. -/
def fmtNum (q : ℚ) : String :=
  let a := |q|
  let ip := (Rat.floor a).toNat
  let fr := a - (ip : ℚ)
  (if q < 0 then "-" else "") ++ Nat.repr ip ++
    (if fr = 0 then "" else "." ++ fracDigits fr 1200)

/-- Accumulate decimal digit characters into a natural number. -/
def digitsToNat (ds : List Char) : Nat :=
  ds.foldl (fun a c => a * 10 + (c.toNat - 48)) 0

/-- Model of Rust `str::parse::<f64>` on the plain decimal fragment of its
grammar (optional sign, integer digits, optional fraction), the only shapes
the writer emits. -/
def parseNum (s : String) : Option ℚ :=
  let cs := s.toList
  let signAndRest : ℚ × List Char :=
    match cs with
    | '-' :: r => (-1, r)
    | '+' :: r => (1, r)
    | r => (1, r)
  let sign := signAndRest.1
  let cs := signAndRest.2
  let intDigits := cs.takeWhile Char.isDigit
  let rest := cs.dropWhile Char.isDigit
  match rest with
  | [] => if intDigits = [] then none else some (sign * (digitsToNat intDigits : ℚ))
  | '.' :: r2 =>
      let fracD := r2.takeWhile Char.isDigit
      let rest2 := r2.dropWhile Char.isDigit
      if rest2 ≠ [] then none
      else if intDigits = [] ∧ fracD = [] then none
      else
        some (sign * ((digitsToNat intDigits : ℚ) +
          (digitsToNat fracD : ℚ) / (10 ^ fracD.length : ℚ)))
  | _ => none

/-- Rust `str::trim`: drop Unicode whitespace from both ends. -/
def strTrim (s : String) : String :=
  ⟨((s.toList.dropWhile Char.isWhitespace).reverse.dropWhile Char.isWhitespace).reverse⟩

/-- Substring occurrence on character lists. -/
def charsContain : List Char → List Char → Bool
  | [], pat => pat.isEmpty
  | c :: rest, pat => pat.isPrefixOf (c :: rest) || charsContain rest pat

/-- Rust `str::contains`. -/
def strContains (s pat : String) : Bool := charsContain s.toList pat.toList

/-- Rust `str::strip_prefix`. -/
def stripPfx (s p : String) : Option String :=
  if p.toList.isPrefixOf s.toList then some ⟨s.toList.drop p.toList.length⟩ else none

/-- Wrap a payload string in double quotes, as the writer emits it (the
source performs no escaping). -/
def fmtQuoted (s : String) : String := "\"" ++ s ++ "\""

/-- Class-name string written for a tier type (writer.rs lines 96-99). -/
def tierClass (tt : TierType) : String :=
  match tt with
  | .intervalTier => "IntervalTier"
  | .pointTier => "TextTier"

/-- Lines of one tier in the long format (writer.rs lines 91-123). -/
def writeLongTier (i : Nat) (tier : Tier) : List String :=
  ["    item [" ++ Nat.repr (i + 1) ++ "]:",
   "        class = " ++ fmtQuoted (tierClass tier.tier_type),
   "        name = " ++ fmtQuoted tier.name,
   "        xmin = " ++ fmtNum tier.xmin,
   "        xmax = " ++ fmtNum tier.xmax] ++
  (match tier.tier_type with
   | .intervalTier =>
       ("        intervals: size = " ++ Nat.repr tier.intervals.length) ::
       tier.intervals.enum.flatMap (fun ji =>
         ["        intervals [" ++ Nat.repr (ji.1 + 1) ++ "]:",
          "            xmin = " ++ fmtNum ji.2.xmin,
          "            xmax = " ++ fmtNum ji.2.xmax,
          "            text = " ++ fmtQuoted ji.2.text])
   | .pointTier =>
       ("        points: size = " ++ Nat.repr tier.points.length) ::
       tier.points.enum.flatMap (fun jp =>
         ["        points [" ++ Nat.repr (jp.1 + 1) ++ "]:",
          "            time = " ++ fmtNum jp.2.time,
          "            mark = " ++ fmtQuoted jp.2.mark]))

/-- write_long_format from src/src/writer.rs lines 82-125, as the list of
lines written (each `writeln!` contributes one line; payload strings are
taken newline-free, as any valid annotation text the claims exercise). -/
def write_long_format (g : TextGrid) : List String :=
  ["File type = \"ooTextFile\"",
   "Object class = \"TextGrid\"",
   "xmin = " ++ fmtNum g.xmin,
   "xmax = " ++ fmtNum g.xmax,
   "tiers? <exists>",
   "size = " ++ Nat.repr g.tiers.length,
   "item []:"] ++
  g.tiers.enum.flatMap (fun it => writeLongTier it.1 it.2)

/-- Lines of one tier in the short format (writer.rs lines 145-173). -/
def writeShortTier (tier : Tier) : List String :=
  [fmtQuoted (tierClass tier.tier_type),
   fmtQuoted tier.name,
   fmtNum tier.xmin,
   fmtNum tier.xmax] ++
  (match tier.tier_type with
   | .intervalTier =>
       Nat.repr tier.intervals.length ::
       tier.intervals.flatMap (fun interval =>
         [fmtNum interval.xmin, fmtNum interval.xmax, fmtQuoted interval.text])
   | .pointTier =>
       Nat.repr tier.points.length ::
       tier.points.flatMap (fun point => [fmtNum point.time, fmtQuoted point.mark]))

/-- write_short_format from src/src/writer.rs lines 138-176. -/
def write_short_format (g : TextGrid) : List String :=
  ["File type = \"ooTextFile\"",
   "Object class = \"TextGrid\"",
   fmtNum g.xmin,
   fmtNum g.xmax,
   Nat.repr g.tiers.length] ++
  g.tiers.flatMap writeShortTier

/-- write_textgrid from src/src/writer.rs lines 61-69. -/
def write_textgrid (g : TextGrid) (shortFormat : Bool) : List String :=
  if shortFormat then write_short_format g else write_long_format g

/-- Outcome of a parse: result, error, or Rust panic. -/
inductive POut (α : Type) where
  | ok (a : α)
  | err (msg : String)
  | panicked
deriving DecidableEq

/-- One `lines.next()` step on the remaining input. -/
def nextLine (ls : List String) : Option String × List String :=
  match ls with
  | [] => (none, [])
  | l :: r => (some l, r)

/-- parse_value from src/src/parser.rs lines 205-212. -/
def parse_value (line : Option String) (pfx : String) : Except String ℚ :=
  match line with
  | none => .error "Unexpected end of file"
  | some l =>
      match stripPfx (strTrim l) pfx with
      | none => .error "Expected prefix"
      | some rest =>
          match parseNum rest with
          | none => .error "Failed to parse number"
          | some q => .ok q

/-- parse_bare_value from src/src/parser.rs lines 224-229. -/
def parse_bare_value (line : Option String) : Except String ℚ :=
  match line with
  | none => .error "Unexpected end of file"
  | some l =>
      match parseNum (strTrim l) with
      | none => .error "Failed to parse number"
      | some q => .ok q

/-- extract_quoted_value from src/src/parser.rs lines 242-252.  For the
one-character string consisting of a single quote, `starts_with` and
`ends_with` both hold and the byte-range `[1..0]` panics. -/
def extract_quoted_value (line : Option String) (pfx : String) : POut String :=
  match line with
  | none => .err "Unexpected end of file"
  | some l =>
      match stripPfx (strTrim l) pfx with
      | none => .err "Expected prefix"
      | some stripped =>
          let cs := stripped.toList
          if ['"'].isPrefixOf cs ∧ ['"'].isSuffixOf cs then
            if cs.length < 2 then .panicked
            else .ok ⟨(cs.drop 1).dropLast⟩
          else .err "Expected quoted string"

/-- extract_quoted_value_short from src/src/parser.rs lines 264-272. -/
def extract_quoted_value_short (line : Option String) : POut String :=
  match line with
  | none => .err "Unexpected end of file"
  | some l =>
      let cs := (strTrim l).toList
      if ['"'].isPrefixOf cs ∧ ['"'].isSuffixOf cs then
        if cs.length < 2 then .panicked
        else .ok ⟨(cs.drop 1).dropLast⟩
      else .err "Expected quoted string"

/-- Model of a Rust `f64 as usize` cast: truncate toward zero, saturating
below at zero. -/
def toUsize (q : ℚ) : Nat :=
  if q < 0 then 0 else (Rat.floor q).toNat

/-- Interval block loop of parse_long_format (parser.rs lines 112-120). -/
def parseLongIntervals : Nat → List String → POut (List Interval × List String)
  | 0, ls => .ok ([], ls)
  | n + 1, ls =>
      let p1 := nextLine ls
      let p2 := nextLine p1.2
      match parse_value p2.1 "xmin = " with
      | .error e => .err e
      | .ok xmin =>
          let p3 := nextLine p2.2
          match parse_value p3.1 "xmax = " with
          | .error e => .err e
          | .ok xmax =>
              let p4 := nextLine p3.2
              match extract_quoted_value p4.1 "text = " with
              | .panicked => .panicked
              | .err e => .err e
              | .ok text =>
                  match parseLongIntervals n p4.2 with
                  | .panicked => .panicked
                  | .err e => .err e
                  | .ok r => .ok (⟨xmin, xmax, text⟩ :: r.1, r.2)

/-- Point block loop of parse_long_format (parser.rs lines 121-128). -/
def parseLongPoints : Nat → List String → POut (List Point × List String)
  | 0, ls => .ok ([], ls)
  | n + 1, ls =>
      let p1 := nextLine ls
      let p2 := nextLine p1.2
      match parse_value p2.1 "time = " with
      | .error e => .err e
      | .ok time =>
          let p3 := nextLine p2.2
          match extract_quoted_value p3.1 "mark = " with
          | .panicked => .panicked
          | .err e => .err e
          | .ok mark =>
              match parseLongPoints n p3.2 with
              | .panicked => .panicked
              | .err e => .err e
              | .ok r => .ok (⟨time, mark⟩ :: r.1, r.2)

/-- Tier loop of parse_long_format (parser.rs lines 93-132).  The tier size
line is read as `parse_value(lines.next(), "intervals: size = ")
.unwrap_or_else(|_| parse_value(lines.next(), "points: size = ").unwrap())`:
the first attempt consumes the line even when its label does not match, the
fallback then reads the FOLLOWING line with the points label and `unwrap`s,
panicking whenever that also fails. -/
def parseLongTiers : Nat → List String → POut (List Tier × List String)
  | 0, ls => .ok ([], ls)
  | n + 1, ls =>
      let p1 := nextLine ls
      let p2 := nextLine p1.2
      match p2.1 with
      | none => .err "Missing class"
      | some classLine =>
          match
            (if strContains classLine "IntervalTier" then some TierType.intervalTier
             else if strContains classLine "TextTier" then some TierType.pointTier
             else none) with
          | none => .err "Unknown tier type"
          | some tt =>
              let p3 := nextLine p2.2
              match extract_quoted_value p3.1 "name = " with
              | .panicked => .panicked
              | .err e => .err e
              | .ok name =>
                  let p4 := nextLine p3.2
                  match parse_value p4.1 "xmin = " with
                  | .error e => .err e
                  | .ok txmin =>
                      let p5 := nextLine p4.2
                      match parse_value p5.1 "xmax = " with
                      | .error e => .err e
                      | .ok txmax =>
                          let cont := fun (tierSize : Nat) (ls' : List String) =>
                            match tt with
                            | TierType.intervalTier =>
                                match parseLongIntervals tierSize ls' with
                                | .panicked => POut.panicked
                                | .err e => POut.err e
                                | .ok r =>
                                    match parseLongTiers n r.2 with
                                    | .panicked => POut.panicked
                                    | .err e => POut.err e
                                    | .ok r2 =>
                                        POut.ok
                                          (⟨name, tt, txmin, txmax, r.1, []⟩ :: r2.1, r2.2)
                            | TierType.pointTier =>
                                match parseLongPoints tierSize ls' with
                                | .panicked => POut.panicked
                                | .err e => POut.err e
                                | .ok r =>
                                    match parseLongTiers n r.2 with
                                    | .panicked => POut.panicked
                                    | .err e => POut.err e
                                    | .ok r2 =>
                                        POut.ok
                                          (⟨name, tt, txmin, txmax, [], r.1⟩ :: r2.1, r2.2)
                          let p6 := nextLine p5.2
                          match parse_value p6.1 "intervals: size = " with
                          | .ok q => cont (toUsize q) p6.2
                          | .error _ =>
                              let p7 := nextLine p6.2
                              match parse_value p7.1 "points: size = " with
                              | .ok q => cont (toUsize q) p7.2
                              | .error _ => .panicked

/-- parse_long_format from src/src/parser.rs lines 81-135. -/
def parse_long_format (ls : List String) : POut TextGrid :=
  let p1 := nextLine ls
  match parse_value p1.1 "xmin = " with
  | .error e => .err e
  | .ok xmin =>
      let p2 := nextLine p1.2
      match parse_value p2.1 "xmax = " with
      | .error e => .err e
      | .ok xmax =>
          let p3 := nextLine p2.2
          match p3.1 with
          | none => .err "Missing tiers flag"
          | some tiersExists =>
              if ¬ strContains tiersExists "tiers? <exists>" then
                .err "Invalid tiers declaration"
              else
                let p4 := nextLine p3.2
                match parse_value p4.1 "size = " with
                | .error e => .err e
                | .ok sizeQ =>
                    let p5 := nextLine p4.2
                    match parseLongTiers (toUsize sizeQ) p5.2 with
                    | .panicked => .panicked
                    | .err e => .err e
                    | .ok r =>
                        match TextGrid.new xmin xmax with
                        | .error e => .err e
                        | .ok g => .ok (with_tiers g r.1)

/-- Interval loop of parse_short_format (parser.rs lines 171-178). -/
def parseShortIntervals : Nat → List String → POut (List Interval × List String)
  | 0, ls => .ok ([], ls)
  | n + 1, ls =>
      let p1 := nextLine ls
      match parse_bare_value p1.1 with
      | .error e => .err e
      | .ok xmin =>
          let p2 := nextLine p1.2
          match parse_bare_value p2.1 with
          | .error e => .err e
          | .ok xmax =>
              let p3 := nextLine p2.2
              match extract_quoted_value_short p3.1 with
              | .panicked => .panicked
              | .err e => .err e
              | .ok text =>
                  match parseShortIntervals n p3.2 with
                  | .panicked => .panicked
                  | .err e => .err e
                  | .ok r => .ok (⟨xmin, xmax, text⟩ :: r.1, r.2)

/-- Point loop of parse_short_format (parser.rs lines 179-185). -/
def parseShortPoints : Nat → List String → POut (List Point × List String)
  | 0, ls => .ok ([], ls)
  | n + 1, ls =>
      let p1 := nextLine ls
      match parse_bare_value p1.1 with
      | .error e => .err e
      | .ok time =>
          let p2 := nextLine p1.2
          match extract_quoted_value_short p2.1 with
          | .panicked => .panicked
          | .err e => .err e
          | .ok mark =>
              match parseShortPoints n p2.2 with
              | .panicked => .panicked
              | .err e => .err e
              | .ok r => .ok (⟨time, mark⟩ :: r.1, r.2)

/-- Tier loop of parse_short_format (parser.rs lines 153-189). -/
def parseShortTiers : Nat → List String → POut (List Tier × List String)
  | 0, ls => .ok ([], ls)
  | n + 1, ls =>
      let p1 := nextLine ls
      match p1.1 with
      | none => .err "Missing tier type"
      | some typeLine =>
          match
            (if strContains typeLine "IntervalTier" then some TierType.intervalTier
             else if strContains typeLine "TextTier" then some TierType.pointTier
             else none) with
          | none => .err "Unknown tier type"
          | some tt =>
              let p2 := nextLine p1.2
              match extract_quoted_value_short p2.1 with
              | .panicked => .panicked
              | .err e => .err e
              | .ok name =>
                  let p3 := nextLine p2.2
                  match parse_bare_value p3.1 with
                  | .error e => .err e
                  | .ok txmin =>
                      let p4 := nextLine p3.2
                      match parse_bare_value p4.1 with
                      | .error e => .err e
                      | .ok txmax =>
                          let p5 := nextLine p4.2
                          match parse_bare_value p5.1 with
                          | .error e => .err e
                          | .ok sizeQ =>
                              match tt with
                              | TierType.intervalTier =>
                                  match parseShortIntervals (toUsize sizeQ) p5.2 with
                                  | .panicked => .panicked
                                  | .err e => .err e
                                  | .ok r =>
                                      match parseShortTiers n r.2 with
                                      | .panicked => .panicked
                                      | .err e => .err e
                                      | .ok r2 =>
                                          .ok (⟨name, tt, txmin, txmax, r.1, []⟩ :: r2.1, r2.2)
                              | TierType.pointTier =>
                                  match parseShortPoints (toUsize sizeQ) p5.2 with
                                  | .panicked => .panicked
                                  | .err e => .err e
                                  | .ok r =>
                                      match parseShortTiers n r.2 with
                                      | .panicked => .panicked
                                      | .err e => .err e
                                      | .ok r2 =>
                                          .ok (⟨name, tt, txmin, txmax, [], r.1⟩ :: r2.1, r2.2)

/-- parse_short_format from src/src/parser.rs lines 147-192. -/
def parse_short_format (ls : List String) : POut TextGrid :=
  let p1 := nextLine ls
  match parse_bare_value p1.1 with
  | .error e => .err e
  | .ok xmin =>
      let p2 := nextLine p1.2
      match parse_bare_value p2.1 with
      | .error e => .err e
      | .ok xmax =>
          let p3 := nextLine p2.2
          match parse_bare_value p3.1 with
          | .error e => .err e
          | .ok sizeQ =>
              match parseShortTiers (toUsize sizeQ) p3.2 with
              | .panicked => .panicked
              | .err e => .err e
              | .ok r =>
                  match TextGrid.new xmin xmax with
                  | .error e => .err e
                  | .ok g => .ok (with_tiers g r.1)

/-- parse_textgrid from src/src/parser.rs lines 47-69, on the list of lines
of the input (I/O is out of scope): header checks, then format
auto-detection by peeking for an `xmin = ` substring. -/
def parse_textgrid (ls : List String) : POut TextGrid :=
  match ls with
  | [] => .err "Empty file"
  | first :: rest =>
      if first ≠ "File type = \"ooTextFile\"" then .err "Invalid file type"
      else
        match rest with
        | [] => .err "Missing object class"
        | second :: rest2 =>
            if second ≠ "Object class = \"TextGrid\"" then .err "Invalid object class"
            else
              let isShort :=
                match rest2.head? with
                | none => false
                | some l => ¬ strContains l "xmin = "
              if isShort then parse_short_format rest2 else parse_long_format rest2

/-- IEEE-754 double value decoded from a 64-bit little-endian pattern:
finite values land in `ℚ`, plus the infinities and NaN. -/
inductive F64 where
  | val (q : ℚ)
  | posInf
  | negInf
  | nan
deriving DecidableEq

/-- Decode a 64-bit pattern (as a natural number) as an IEEE-754 double. -/
def decodeF64 (n : Nat) : F64 :=
  let sign : Nat := n / 2 ^ 63
  let expo : Nat := (n / 2 ^ 52) % 2 ^ 11
  let man : Nat := n % 2 ^ 52
  if expo = 2047 then
    if man = 0 then (if sign = 1 then .negInf else .posInf) else .nan
  else
    let mag : ℚ :=
      if expo = 0 then (man : ℚ) * (2 : ℚ) ^ (-1074 : ℤ)
      else (((2 ^ 52 + man : Nat)) : ℚ) * (2 : ℚ) ^ ((expo : ℤ) - 1075)
    .val (if sign = 1 then -mag else mag)

/-- The `>=` comparison on doubles; false whenever a NaN is involved. -/
def f64ge (a b : F64) : Bool :=
  match a, b with
  | .nan, _ => false
  | _, .nan => false
  | .posInf, _ => true
  | .val _, .posInf => false
  | .val x, .val y => y ≤ x
  | .val _, .negInf => true
  | .negInf, .negInf => true
  | .negInf, _ => false

/-- Interval as decoded by the binary reader (raw IEEE times). -/
structure BinInterval where
  xmin : F64
  xmax : F64
  text : String
deriving DecidableEq

/-- Point as decoded by the binary reader. -/
structure BinPoint where
  time : F64
  mark : String
deriving DecidableEq

/-- Tier as decoded by the binary reader. -/
structure BinTier where
  name : String
  tier_type : TierType
  xmin : F64
  xmax : F64
  intervals : List BinInterval
  points : List BinPoint
deriving DecidableEq

/-- TextGrid as decoded by the binary reader.  The history fields created
by `TextGrid::new` (empty stacks, capacity 100) carry no information here
and are left out. -/
structure BinTextGrid where
  xmin : F64
  xmax : F64
  tiers : List BinTier
deriving DecidableEq

/-- Rust slice `&buffer[c..c + k]`: `none` models the bounds panic. -/
def slice (bs : List Nat) (c k : Nat) : Option (List Nat) :=
  if c + k ≤ bs.length then some ((bs.drop c).take k) else none

/-- Little-endian value of a byte list (`uXX::from_le_bytes`). -/
def leVal (bs : List Nat) : Nat :=
  bs.foldr (fun b acc => b + 256 * acc) 0

/-- Is a byte a UTF-8 continuation byte. -/
def isContByte (b : Nat) : Bool := decide (128 ≤ b) && decide (b < 192)

/-- UTF-8 decoding of a byte list, rejecting exactly what Rust
`String::from_utf8` rejects (truncated sequences, bad continuations,
overlong forms, surrogates, values above U+10FFFF).  Fuel is the list
length, enough for the one-byte-per-step recursion. -/
def utf8DecodeAux : Nat → List Nat → Option (List Char)
  | _, [] => some []
  | 0, _ :: _ => none
  | fuel + 1, b0 :: rest =>
      if b0 < 128 then
        (utf8DecodeAux fuel rest).map (fun cs => Char.ofNat b0 :: cs)
      else if 194 ≤ b0 ∧ b0 ≤ 223 then
        match rest with
        | b1 :: r =>
            if isContByte b1 then
              (utf8DecodeAux fuel r).map
                (fun cs => Char.ofNat ((b0 - 192) * 64 + (b1 - 128)) :: cs)
            else none
        | [] => none
      else if 224 ≤ b0 ∧ b0 ≤ 239 then
        match rest with
        | b1 :: b2 :: r =>
            let lo1 := if b0 = 224 then 160 else 128
            let hi1 := if b0 = 237 then 159 else 191
            if lo1 ≤ b1 ∧ b1 ≤ hi1 ∧ isContByte b2 then
              (utf8DecodeAux fuel r).map
                (fun cs =>
                  Char.ofNat ((b0 - 224) * 4096 + (b1 - 128) * 64 + (b2 - 128)) :: cs)
            else none
        | _ => none
      else if 240 ≤ b0 ∧ b0 ≤ 244 then
        match rest with
        | b1 :: b2 :: b3 :: r =>
            let lo1 := if b0 = 240 then 144 else 128
            let hi1 := if b0 = 244 then 143 else 191
            if lo1 ≤ b1 ∧ b1 ≤ hi1 ∧ isContByte b2 ∧ isContByte b3 then
              (utf8DecodeAux fuel r).map
                (fun cs =>
                  Char.ofNat
                    ((b0 - 240) * 262144 + (b1 - 128) * 4096 +
                      (b2 - 128) * 64 + (b3 - 128)) :: cs)
            else none
        | _ => none
      else none

/-- Rust `String::from_utf8`. -/
def utf8Decode (bs : List Nat) : Option String :=
  (utf8DecodeAux bs.length bs).map (fun cs => ⟨cs⟩)

/-- ASCII bytes of the `ooBinaryFile` magic string. -/
def magicBytes : List Nat := [111, 111, 66, 105, 110, 97, 114, 121, 70, 105, 108, 101]

/-- ASCII bytes of the `TextGrid` class name. -/
def textGridBytes : List Nat := [84, 101, 120, 116, 71, 114, 105, 100]

/-- Interval element loop of read_binary (binary.rs lines 122-132),
returning the parsed elements and the cursor after them. -/
def readBinIntervals (bs : List Nat) : Nat → Nat → POut (List BinInterval × Nat)
  | 0, cursor => .ok ([], cursor)
  | n + 1, cursor =>
      match slice bs cursor 8 with
      | none => .panicked
      | some xb =>
          match slice bs (cursor + 8) 8 with
          | none => .panicked
          | some yb =>
              match slice bs (cursor + 16) 2 with
              | none => .panicked
              | some lb =>
                  let tlen := leVal lb
                  match slice bs (cursor + 18) tlen with
                  | none => .panicked
                  | some tb =>
                      match utf8Decode tb with
                      | none => .err "Invalid UTF-8 sequence"
                      | some text =>
                          match readBinIntervals bs n (cursor + 18 + tlen) with
                          | .panicked => .panicked
                          | .err e => .err e
                          | .ok r =>
                              .ok (⟨decodeF64 (leVal xb), decodeF64 (leVal yb), text⟩ :: r.1,
                                r.2)

/-- Point element loop of read_binary (binary.rs lines 134-144). -/
def readBinPoints (bs : List Nat) : Nat → Nat → POut (List BinPoint × Nat)
  | 0, cursor => .ok ([], cursor)
  | n + 1, cursor =>
      match slice bs cursor 8 with
      | none => .panicked
      | some tb =>
          match slice bs (cursor + 8) 2 with
          | none => .panicked
          | some lb =>
              let mlen := leVal lb
              match slice bs (cursor + 10) mlen with
              | none => .panicked
              | some mb =>
                  match utf8Decode mb with
                  | none => .err "Invalid UTF-8 sequence"
                  | some mark =>
                      match readBinPoints bs n (cursor + 10 + mlen) with
                      | .panicked => .panicked
                      | .err e => .err e
                      | .ok r => .ok (⟨decodeF64 (leVal tb), mark⟩ :: r.1, r.2)

/-- Tier loop of read_binary (binary.rs lines 92-148). -/
def readBinTiers (bs : List Nat) : Nat → Nat → POut (List BinTier × Nat)
  | 0, cursor => .ok ([], cursor)
  | n + 1, cursor =>
      match slice bs cursor 2 with
      | none => .panicked
      | some clb =>
          let classLen := leVal clb
          match slice bs (cursor + 2) classLen with
          | none => .panicked
          | some classBytes =>
              match utf8Decode classBytes with
              | none => .err "Invalid UTF-8 sequence"
              | some cls =>
                  match
                    (if cls = "IntervalTier" then some TierType.intervalTier
                     else if cls = "TextTier" then some TierType.pointTier
                     else none) with
                  | none => .err "Unknown tier type"
                  | some tt =>
                      let c1 := cursor + 2 + classLen
                      match slice bs c1 2 with
                      | none => .panicked
                      | some nlb =>
                          let nameLen := leVal nlb
                          match slice bs (c1 + 2) nameLen with
                          | none => .panicked
                          | some nameBytes =>
                              match utf8Decode nameBytes with
                              | none => .err "Invalid UTF-8 sequence"
                              | some name =>
                                  let c2 := c1 + 2 + nameLen
                                  match slice bs c2 8 with
                                  | none => .panicked
                                  | some xb =>
                                      match slice bs (c2 + 8) 8 with
                                      | none => .panicked
                                      | some yb =>
                                          match slice bs (c2 + 16) 4 with
                                          | none => .panicked
                                          | some cb =>
                                              let count := leVal cb
                                              let c3 := c2 + 20
                                              match tt with
                                              | TierType.intervalTier =>
                                                  match readBinIntervals bs count c3 with
                                                  | .panicked => .panicked
                                                  | .err e => .err e
                                                  | .ok r =>
                                                      match readBinTiers bs n r.2 with
                                                      | .panicked => .panicked
                                                      | .err e => .err e
                                                      | .ok r2 =>
                                                          .ok (⟨name, tt, decodeF64 (leVal xb),
                                                            decodeF64 (leVal yb), r.1, []⟩ ::
                                                            r2.1, r2.2)
                                              | TierType.pointTier =>
                                                  match readBinPoints bs count c3 with
                                                  | .panicked => .panicked
                                                  | .err e => .err e
                                                  | .ok r =>
                                                      match readBinTiers bs n r.2 with
                                                      | .panicked => .panicked
                                                      | .err e => .err e
                                                      | .ok r2 =>
                                                          .ok (⟨name, tt, decodeF64 (leVal xb),
                                                            decodeF64 (leVal yb), [], r.1⟩ ::
                                                            r2.1, r2.2)

/-- read_binary from src/src/binary.rs lines 65-151, on the byte list of
the file.  Every slice access mirrors the source's unchecked-in-advance
`&buffer[cursor..cursor + k]` indexing: when the range exceeds the buffer
the outcome is a panic, not an error value. -/
def read_binary (bs : List Nat) : POut BinTextGrid :=
  match slice bs 0 12 with
  | none => .panicked
  | some magic =>
      if magic ≠ magicBytes then .err "Not a Praat binary TextGrid"
      else
        match slice bs 12 2 with
        | none => .panicked
        | some ob =>
            let objLen := leVal ob
            match slice bs 14 objLen with
            | none => .panicked
            | some objB =>
                if objB ≠ textGridBytes then .err "Invalid object class"
                else
                  let c := 14 + objLen
                  match slice bs c 8 with
                  | none => .panicked
                  | some xb =>
                      match slice bs (c + 8) 8 with
                      | none => .panicked
                      | some yb =>
                          match slice bs (c + 16) 4 with
                          | none => .panicked
                          | some sb =>
                              let size := leVal sb
                              match readBinTiers bs size (c + 20) with
                              | .panicked => .panicked
                              | .err e => .err e
                              | .ok r =>
                                  let xmin := decodeF64 (leVal xb)
                                  let xmax := decodeF64 (leVal yb)
                                  if f64ge xmin xmax then
                                    .err "xmin must be less than xmax"
                                  else .ok ⟨xmin, xmax, r.1⟩

/-- Deep syntax for the twelve mutating Edit Engine operations of §4.5. -/
inductive Op where
  | opAddTier (tier : Tier)
  | opRemoveTier (index : Nat)
  | opRenameTier (oldName newName : String)
  | opMergeTiers (name1 name2 newName : String)
      (strategy : Interval → Interval → Option Interval)
  | opAdjustBounds (newXmin newXmax : ℚ)
  | opInsertSilence (tierName : String) (s e : ℚ)
  | opAddInterval (tierName : String) (interval : Interval)
  | opRemoveInterval (tierName : String) (index : Nat)
  | opAddPoint (tierName : String) (point : Point)
  | opRemovePoint (tierName : String) (index : Nat)
  | opSplitInterval (tierName : String) (index : Nat) (time : ℚ)
  | opMergeIntervals (tierName : String)

/-- Dispatch an operation to its implementation. -/
def applyOp (g : TextGrid) : Op → MOut Unit
  | .opAddTier tier => add_tier g tier
  | .opRemoveTier index => remove_tier g index
  | .opRenameTier oldName newName => rename_tier g oldName newName
  | .opMergeTiers name1 name2 newName strategy =>
      merge_tiers_with_strategy g name1 name2 newName strategy
  | .opAdjustBounds a b => adjust_bounds g a b
  | .opInsertSilence tierName s e => insert_silence g tierName s e
  | .opAddInterval tierName interval => tier_add_interval g tierName interval
  | .opRemoveInterval tierName index => tier_remove_interval g tierName index
  | .opAddPoint tierName point => tier_add_point g tierName point
  | .opRemovePoint tierName index => tier_remove_point g tierName index
  | .opSplitInterval tierName index time => tier_split_interval g tierName index time
  | .opMergeIntervals tierName => tier_merge_intervals g tierName

/-- An action on a live document: a mutating operation, an undo or a redo. -/
inductive Act where
  | op (o : Op)
  | actUndo
  | actRedo

/-- Run one action. -/
def runAct (g : TextGrid) : Act → MOut Unit
  | .op o => applyOp g o
  | .actUndo => g.undo
  | .actRedo => g.redo

/-- Post-state of an outcome; `none` when the program panicked. -/
def MOut.state {α : Type} : MOut α → Option TextGrid
  | .ok g _ => some g
  | .err g _ => some g
  | .panicked => none

/-- Thread a list of actions through the document, keeping the state of
failed (but non-panicking) actions, as a live Rust value would. -/
def runActs (g : TextGrid) : List Act → Option TextGrid
  | [] => some g
  | a :: rest =>
      match (runAct g a).state with
      | none => none
      | some g' => runActs g' rest

/-- Run a list of operations, requiring every one to succeed. -/
def runOpsOk (g : TextGrid) : List Op → Option TextGrid
  | [] => some g
  | o :: rest =>
      match applyOp g o with
      | .ok g' _ => runOpsOk g' rest
      | _ => none

/-- Outcome tag of one undo call. -/
inductive UndoTag where
  | success
  | failure (msg : String)
  | panicked
deriving DecidableEq

/-- Call undo `n` times, recording each outcome (stopping on a panic). -/
def undoTrace (g : TextGrid) : Nat → List UndoTag
  | 0 => []
  | n + 1 =>
      match g.undo with
      | .ok g' _ => .success :: undoTrace g' n
      | .err g' e => .failure e :: undoTrace g' n
      | .panicked => [.panicked]

/-- Spec-side chain invariant of the validator on an interval tier: each
interval starts no earlier than the running end (so no overlap), is
non-degenerate, and the chain starts at the given bound; gaps between
intervals are allowed and the chain need not reach the tier end. -/
def IntervalChainOk (prev : ℚ) : List Interval → Prop
  | [] => True
  | iv :: rest => prev ≤ iv.xmin ∧ iv.xmin < iv.xmax ∧ IntervalChainOk iv.xmax rest

/-- Spec-side per-tier validity as the validator actually decides it. -/
def TierSpecOk (gxmin gxmax : ℚ) (t : Tier) : Prop :=
  gxmin ≤ t.xmin ∧ t.xmax ≤ gxmax ∧ t.xmin < t.xmax ∧
  (t.tier_type = .intervalTier → IntervalChainOk t.xmin t.intervals) ∧
  (t.tier_type = .pointTier → ∀ p ∈ t.points, t.xmin ≤ p.time ∧ p.time ≤ t.xmax)

/-- Spec-side document validity as the validator actually decides it. -/
def ValidSpec (g : TextGrid) : Prop :=
  g.xmin < g.xmax ∧ ∀ t ∈ g.tiers, TierSpecOk g.xmin g.xmax t

/-- Spec-side description of what insert_silence keeps of one existing
interval: unchanged when fully outside `[s, e)`, otherwise the left part
before `s` and the right part after `e`, discarding the covered portion. -/
def silencePiece (s e : ℚ) (iv : Interval) : List Interval :=
  if iv.xmax ≤ s ∨ e ≤ iv.xmin then [iv]
  else
    (if iv.xmin < s then [⟨iv.xmin, s, iv.text⟩] else []) ++
      (if e < iv.xmax then [⟨e, iv.xmax, iv.text⟩] else [])

/-- History-state invariant maintained by every operation: the capacity
field stays at 100 and the undo stack never exceeds it. -/
def Inv (g : TextGrid) : Prop :=
  g.max_history = 100 ∧ g.history.length ≤ 100

/-- Lift the invariant to an operation outcome (panic outcomes have no
state to constrain). -/
def InvOut {α : Type} : MOut α → Prop
  | .ok g _ => Inv g
  | .err g _ => Inv g
  | .panicked => True

/-- Point tier used for the undo/redo inverse-law run. -/
def c1Tier : Tier := ⟨"p", .pointTier, 0, 10, [], [⟨1, "a"⟩, ⟨3, "c"⟩]⟩

/-- Document used for the undo/redo inverse-law run. -/
def c1Doc : TextGrid := ⟨0, 10, [c1Tier], [], [], 100⟩

/-- One successful add-point edit, one undo, one redo; the pair holds the
point list right after the edit and the point list after undo plus redo. -/
def c1Run : Option (List Point × List Point) :=
  match tier_add_point c1Doc "p" ⟨2, "b"⟩ with
  | .ok g1 _ =>
      match g1.undo with
      | .ok g2 _ =>
          match g2.redo with
          | .ok g3 _ => some ((g1.tiers.headD dTier).points, (g3.tiers.headD dTier).points)
          | _ => none
      | _ => none
  | _ => none

/-- Interval tier used for the split-interval failure runs. -/
def c2Tier : Tier := ⟨"t", .intervalTier, 0, 10, [⟨0, 1, "x"⟩], []⟩

/-- Document used for the split-interval failure runs. -/
def c2Doc : TextGrid := ⟨0, 10, [c2Tier], [], [], 100⟩

/-- Document whose single interval tier leaves `[1, 2]` of the tier span
uncovered (the last interval ends before the tier `xmax`). -/
def c3Doc : TextGrid := ⟨0, 2, [⟨"w", .intervalTier, 0, 2, [⟨0, 1, "a"⟩], []⟩], [], [], 100⟩

/-- Valid document with one point tier, used for the codec round trip. -/
def c4Doc : TextGrid := ⟨0, 1, [⟨"p", .pointTier, 0, 1, [], [⟨1/2, "a"⟩]⟩], [], [], 100⟩

/-- Interval tier named like an already-present tier. -/
def c9Tier : Tier := ⟨"a", .intervalTier, 0, 1, [], []⟩

/-- Two add_tier calls with the same tier name, starting from a fresh
document; yields the resulting tier-name list when both succeed. -/
def c9Run : Option (List String) :=
  match TextGrid.new 0 1 with
  | .error _ => none
  | .ok g0 =>
      match add_tier g0 c9Tier with
      | .ok g1 _ =>
          match add_tier g1 c9Tier with
          | .ok g2 _ => some (g2.tiers.map Tier.name)
          | _ => none
      | _ => none

/-- A sequence of 101 operations that all succeed: add a tier named a, add
an interval to it, add a second tier also named a, remove the first tier
(now holding the interval), then 97 bound adjustments. -/
def c5Ops : List Op :=
  [.opAddTier ⟨"a", .intervalTier, 0, 10, [], []⟩,
   .opAddInterval "a" ⟨1, 2, "x"⟩,
   .opAddTier ⟨"a", .intervalTier, 0, 10, [], []⟩,
   .opRemoveTier 0] ++ List.replicate 97 (.opAdjustBounds 0 11)

/-- Run the 101 operations from a fresh document and then call undo 101
times, collecting each undo outcome. -/
def c5Run : Option (List UndoTag) :=
  match TextGrid.new 0 10 with
  | .error _ => none
  | .ok g0 => (runOpsOk g0 c5Ops).map (fun g => undoTrace g 101)

/-- First source tier for the merge frame witness. -/
def c10Tier1 : Tier := ⟨"a", .intervalTier, 0, 1, [], []⟩

/-- Second source tier for the merge frame witness. -/
def c10Tier2 : Tier := ⟨"b", .intervalTier, 0, 1, [], []⟩

/-- Document with the two source tiers for the merge frame witness. -/
def c10Doc : TextGrid := ⟨0, 1, [c10Tier1, c10Tier2], [], [], 100⟩

/-- The merged tier produced by the witness call. -/
def c10Merged : Tier := ⟨"m", .intervalTier, 0, 1, [], []⟩

/-- The document state after the witness merge call. -/
def c10Doc' : TextGrid :=
  ⟨0, 1, [c10Tier1, c10Tier2, c10Merged], [.mergeTiers "a" "b" "m" c10Merged], [], 100⟩

/-- Interval tier used for the insert_silence witness. -/
def c8Tier : Tier := ⟨"t", .intervalTier, 0, 10, [⟨0, 2, "x"⟩], []⟩

/-- Document used for the insert_silence witness. -/
def c8Doc : TextGrid := ⟨0, 10, [c8Tier], [], [], 100⟩

/-- C1: the undo/redo inverse law fails on the code.  After the single
successful operation tier_add_point of (2, b) on a point tier holding
(1, a) and (3, c), one undo succeeds, but the following redo removes the
point (3, c) instead of re-adding (2, b): undoing AddPoint records a
RemovePoint change on the redo stack, and redoing RemovePoint routes
through tier_remove_point, so redo does not restore the post-edit state. -/
theorem undo_redo_point_redo_diverges :
    c1Run = some ([⟨1, "a"⟩, ⟨2, "b"⟩, ⟨3, "c"⟩], [⟨1, "a"⟩]) ∧
      ([⟨1, "a"⟩, ⟨2, "b"⟩, ⟨3, "c"⟩] : List Point) ≠ [⟨1, "a"⟩] := by
  constructor
  · decide
  · decide

/-- C2: failure atomicity fails on the code.  tier_split_interval with a
valid index 0 but an out-of-range split time 5 returns an error, yet the
document has lost the interval: Tier::split_interval removes the interval
before Interval::split validates the time, and the error propagates with
the removal kept.  No change is pushed, so the loss is not undoable. -/
theorem tier_split_interval_mutates_on_error :
    tier_split_interval c2Doc "t" 0 5 =
      .err ⟨0, 10, [⟨"t", .intervalTier, 0, 10, [], []⟩], [], [], 100⟩
        "Split time must be within interval bounds" ∧
      (⟨0, 10, [⟨"t", .intervalTier, 0, 10, [], []⟩], [], [], 100⟩ : TextGrid) ≠ c2Doc := by
  constructor
  · decide
  · decide

/-- C6: total index-error behaviour fails for the TextGrid-level wrapper.
Tier::split_interval at index 5 of a one-interval tier does return an
error value, but TextGrid::tier_split_interval clones
`tier.intervals[index]` before any range check, so the same call on the
document panics instead of returning IndexOutOfRange. -/
theorem tier_split_interval_oob_panics :
    tier_split_interval c2Doc "t" 5 (1/2) = .panicked ∧
      Tier.split_interval c2Tier 5 (1/2) = .err c2Tier "Invalid split operation" := by
  constructor
  · decide
  · decide

/-- C3 counterexample: validate_textgrid accepts a document whose single
non-empty interval tier does not cover the tier span (its last interval
ends at 1 while the tier ends at 2), although the claim requires an error
for every such document. -/
theorem validate_accepts_gap :
    validate_textgrid c3Doc = .ok () ∧
      ((c3Doc.tiers.headD dTier).intervals.getLastD dInterval).xmax ≠
        (c3Doc.tiers.headD dTier).xmax := by
  constructor
  · rfl
  · decide

/-- C4: the codec round trip fails on the code.  Writing the valid
document c4Doc (one point tier, one point) in the long format and parsing
the result back panics: the tier-size line reads
`parse_value(lines.next(), "intervals: size = ")` which consumes the
`points: size = 1` line and fails, and the fallback then applies the
`points: size = ` label to the following `points [1]:` line and unwraps
the failure. -/
theorem long_roundtrip_point_tier_panics :
    parse_textgrid (write_long_format c4Doc) = .panicked ∧
      validate_textgrid c4Doc = .ok () := by
  constructor
  · decide
  · rfl

/-- C7 counterexample: read_binary on the empty input panics on the very
first slice `&buffer[0..12]` instead of returning a MalformedInput error
value. -/
theorem read_binary_empty_panics : read_binary [] = .panicked := by decide

/-- C7 (amended): on any input shorter than the 12-byte magic string the
binary reader fails with the checked slice-bounds panic of
`&buffer[0..12]`, not with an error value; truncation is caught by Rust
slice bounds checks, never by an unchecked access. -/
theorem read_binary_truncated_magic_panics (bs : List Nat) (h : bs.length < 12) :
    read_binary bs = .panicked := by
  have h12 : ¬ (0 + 12 ≤ bs.length) := by omega
  simp [read_binary, slice, h12]

/-- C7 witness: the one-byte input is shorter than the magic string and
panics. -/
theorem read_binary_truncated_magic_panics_witness :
    ([111] : List Nat).length < 12 ∧ read_binary [111] = .panicked :=
  ⟨by decide, read_binary_truncated_magic_panics [111] (by decide)⟩

set_option maxRecDepth 10000 in
/-- C5 counterexample: after the 101 successful edits of c5Ops, only 99
undo calls succeed, the 100th undo fails with an Interval-not-found domain
error (the undo of the evicted-window AddInterval change looks inside the
wrong same-named tier), and the 101st fails with NothingToUndo — not the
exactly-100-then-NothingToUndo pattern the claim requires for every
sequence. -/
theorem undo_calls_after_101_edits :
    c5Ops.length = 101 ∧
      c5Run = some (List.replicate 99 .success ++
        [.failure "Interval not found", .failure "No more actions to undo"]) := by
  constructor
  · decide
  · decide

/-- C9 counterexample: tier-name uniqueness is not an invariant of the
public operations.  From a fresh document, two add_tier calls with the
same tier name both succeed and produce a document whose tier-name list is
`[a, a]`, which is not duplicate-free. -/
theorem duplicate_tier_names_reachable :
    c9Run = some ["a", "a"] ∧ ¬ (["a", "a"] : List String).Nodup := by
  constructor
  · decide
  · decide

/-- C9 (amended): none of the name-introducing operations checks name
uniqueness; in particular add_tier succeeds for any tier whose bounds lie
within the document bounds, regardless of an existing tier with the same
name, appending it verbatim — so documents with duplicate tier names are
reachable. -/
theorem add_tier_ignores_name_collision (g : TextGrid) (tier : Tier)
    (h1 : g.xmin ≤ tier.xmin) (h2 : tier.xmax ≤ g.xmax) :
    ∃ g', add_tier g tier = .ok g' () ∧ g'.tiers = g.tiers ++ [tier] := by
  have hc : ¬ (tier.xmin < g.xmin ∨ g.xmax < tier.xmax) := by
    push_neg
    exact ⟨h1, h2⟩
  refine ⟨{ save_change g (.addTier tier) with
            tiers := (save_change g (.addTier tier)).tiers ++ [tier] }, ?_, ?_⟩
  · simp [add_tier, hc]
  · simp [save_change]

/-- C9 witness: adding a tier named like the present one to a concrete
document within bounds. -/
theorem add_tier_ignores_name_collision_witness :
    ((0 : ℚ) ≤ 0 ∧ (1 : ℚ) ≤ 1) ∧
      ∃ g', add_tier ⟨0, 1, [c9Tier], [], [], 100⟩ c9Tier = .ok g' () ∧
        g'.tiers = [c9Tier] ++ [c9Tier] :=
  ⟨⟨by decide, by decide⟩,
    add_tier_ignores_name_collision ⟨0, 1, [c9Tier], [], [], 100⟩ c9Tier
      (by decide) (by decide)⟩

/-- The interval chain check succeeds exactly on chain-invariant lists. -/
theorem checkIntervalChain_ok_iff (l : List Interval) : ∀ prev,
    checkIntervalChain prev l = .ok () ↔ IntervalChainOk prev l := by
  induction l with
  | nil => intro prev; simp [checkIntervalChain, IntervalChainOk]
  | cons iv rest ih =>
      intro prev
      simp only [checkIntervalChain, IntervalChainOk]
      by_cases h1 : iv.xmin < prev
      · simp [h1, not_le.mpr h1]
      · by_cases h2 : iv.xmax ≤ iv.xmin
        · simp [h1, h2, not_lt.mpr h2]
        · simp [h1, h2, ih, not_lt.1 h1, not_le.1 h2]

/-- The point check succeeds exactly when every point is within bounds. -/
theorem checkPoints_ok_iff (l : List Point) (a b : ℚ) :
    checkPoints a b l = .ok () ↔ ∀ p ∈ l, a ≤ p.time ∧ p.time ≤ b := by
  induction l with
  | nil => simp [checkPoints]
  | cons p rest ih =>
      by_cases h : p.time < a ∨ b < p.time
      · simp only [checkPoints, if_pos h]
        constructor
        · intro hh; simp at hh
        · intro hall
          exfalso
          rcases h with h | h
          · exact absurd (hall p (by simp)).1 (not_le.mpr h)
          · exact absurd (hall p (by simp)).2 (not_le.mpr h)
      · have h' := h; push_neg at h'
        simp [checkPoints, if_neg h, ih, h'.1, h'.2]

/-- The per-tier check succeeds exactly on spec-valid tiers. -/
theorem validateTier_ok_iff (a b : ℚ) (t : Tier) :
    validateTier a b t = .ok () ↔ TierSpecOk a b t := by
  simp only [validateTier, TierSpecOk]
  by_cases h1 : t.xmin < a ∨ b < t.xmax
  · simp only [if_pos h1]
    constructor
    · intro hh; simp at hh
    · intro hall
      exfalso
      rcases h1 with h | h
      · exact absurd hall.1 (not_le.mpr h)
      · exact absurd hall.2.1 (not_le.mpr h)
  · have h1' := h1; push_neg at h1'
    by_cases h2 : t.xmax ≤ t.xmin
    · simp [if_neg h1, h2, not_lt.mpr h2, h1'.1, h1'.2]
    · cases htt : t.tier_type with
      | intervalTier =>
          by_cases he : t.intervals = []
          · simp [if_neg h1, h2, htt, he, h1'.1, h1'.2, not_le.1 h2, IntervalChainOk]
          · simp [if_neg h1, h2, htt, he, h1'.1, h1'.2, not_le.1 h2,
              checkIntervalChain_ok_iff]
      | pointTier =>
          simp [if_neg h1, h2, htt, h1'.1, h1'.2, not_le.1 h2, checkPoints_ok_iff]

/-- The tier loop succeeds exactly when every tier passes. -/
theorem validateTiers_ok_iff (a b : ℚ) (l : List Tier) :
    validateTiers a b l = .ok () ↔ ∀ t ∈ l, TierSpecOk a b t := by
  induction l with
  | nil => simp [validateTiers]
  | cons t rest ih =>
      simp only [validateTiers]
      cases hv : validateTier a b t with
      | error e =>
          constructor
          · intro hh; simp at hh
          · intro hall
            exfalso
            have := (validateTier_ok_iff a b t).mpr (hall t (by simp))
            rw [hv] at this; simp at this
      | ok u =>
          cases u
          have ht : TierSpecOk a b t := (validateTier_ok_iff a b t).mp hv
          simp [ih, ht]

/-- C3 (amended): validate_textgrid succeeds exactly on documents with
ordered bounds whose tiers sit inside the document bounds with ordered
bounds, whose non-empty interval tiers chain without overlap starting at
tier.xmin with each interval non-degenerate — gaps between intervals and
coverage stopping before tier.xmax are accepted, dropping the claim's
contiguity requirement — and whose point tiers keep every point inside the
tier bounds. -/
theorem validate_ok_iff_validSpec (g : TextGrid) :
    validate_textgrid g = .ok () ↔ ValidSpec g := by
  simp only [validate_textgrid, ValidSpec]
  by_cases h : g.xmax ≤ g.xmin
  · simp only [if_pos h]
    constructor
    · intro hh; simp at hh
    · intro hall; exact absurd hall.1 (not_lt.mpr h)
  · simp [if_neg h, validateTiers_ok_iff, not_le.1 h]

/-- C10: frame property of merge_tiers_with_strategy.  On success the
document keeps its bounds and every pre-existing tier untouched (the two
source tiers included), and exactly one interval tier is appended at the
end, named as requested, spanning the document bounds. -/
theorem merge_tiers_frame (g : TextGrid) (name1 name2 newName : String)
    (strategy : Interval → Interval → Option Interval) (g' : TextGrid)
    (h : merge_tiers_with_strategy g name1 name2 newName strategy = .ok g' ()) :
    ∃ t, g'.tiers = g.tiers ++ [t] ∧ t.name = newName ∧ t.tier_type = .intervalTier ∧
      t.xmin = g.xmin ∧ t.xmax = g.xmax ∧ t.points = [] ∧
      g'.xmin = g.xmin ∧ g'.xmax = g.xmax := by
  unfold merge_tiers_with_strategy at h
  split at h
  · cases h
  next tier1 heq1 =>
    split at h
    · cases h
    next tier2 heq2 =>
      split at h
      · cases h
      next hty =>
        injection h with hg _
        subst hg
        refine ⟨⟨newName, .intervalTier, g.xmin, g.xmax,
          mergeSweep strategy (sort_intervals (tier1.intervals ++ tier2.intervals)), []⟩,
          ?_, rfl, rfl, rfl, rfl, rfl, ?_, ?_⟩
        · simp [save_change]
        · simp [save_change]
        · simp [save_change]

/-- C10 witness: merging the two empty interval tiers of c10Doc with a
strategy that never combines appends exactly the tier c10Merged. -/
theorem merge_tiers_frame_witness :
    merge_tiers_with_strategy c10Doc "a" "b" "m" (fun _ _ => none) = .ok c10Doc' () ∧
      ∃ t, c10Doc'.tiers = c10Doc.tiers ++ [t] ∧ t.name = "m" ∧
        t.tier_type = .intervalTier ∧ t.xmin = c10Doc.xmin ∧ t.xmax = c10Doc.xmax ∧
        t.points = [] ∧ c10Doc'.xmin = c10Doc.xmin ∧ c10Doc'.xmax = c10Doc.xmax :=
  ⟨by decide,
    merge_tiers_frame c10Doc "a" "b" "m" (fun _ _ => none) c10Doc' (by decide)⟩

/-- The first matching element found by find? sits at the index located by
findIdxAux. -/
theorem find?_exists_findIdxAux {α : Type} (p : α → Bool) (d : α) (l : List α) :
    ∀ a, l.find? p = some a → ∃ i, findIdxAux p l = some i ∧ l.getD i d = a := by
  induction l with
  | nil => intro a h; simp at h
  | cons x xs ih =>
      intro a h
      by_cases hx : p x
      · rw [List.find?_cons_of_pos _ hx] at h
        injection h with h
        exact ⟨0, by simp [findIdxAux, hx], by simpa using h⟩
      · rw [List.find?_cons_of_neg _ hx] at h
        obtain ⟨i, hi, hg⟩ := ih a h
        exact ⟨i + 1, by simp [findIdxAux, hx, hi], by simpa using hg⟩

/-- Updating the list at the first matching index makes find? return the
replacement, provided it still matches. -/
theorem find?_set_of_findIdxAux {α : Type} (p : α → Bool) (l : List α) :
    ∀ i b, findIdxAux p l = some i → p b → (l.set i b).find? p = some b := by
  induction l with
  | nil => intro i b h _; simp [findIdxAux] at h
  | cons x xs ih =>
      intro i b h hb
      by_cases hx : p x
      · simp [findIdxAux, hx] at h
        subst h
        simp [List.find?_cons_of_pos _ hb]
      · simp [findIdxAux, hx] at h
        obtain ⟨j, hj, rfl⟩ := h
        simpa [List.find?_cons_of_neg _ hx] using ih j b hj hb

/-- The insert_silence loop body appends exactly the spec pieces. -/
theorem insertSilenceStep_eq (s e : ℚ) (acc : List Interval) (iv : Interval) :
    insertSilenceStep s e acc iv = acc ++ silencePiece s e iv := by
  unfold insertSilenceStep silencePiece
  split_ifs <;> simp [List.append_assoc]

/-- The insert_silence loop computes the concatenation of the spec pieces
of every interval, in order. -/
theorem insertSilencePieces_eq (s e : ℚ) (l : List Interval) :
    insertSilencePieces s e l = l.flatMap (silencePiece s e) := by
  suffices h : ∀ acc, l.foldl (insertSilenceStep s e) acc =
      acc ++ l.flatMap (silencePiece s e) by
    simpa [insertSilencePieces] using h []
  induction l with
  | nil => intro acc; simp
  | cons iv rest ih =>
      intro acc
      rw [List.foldl_cons, insertSilenceStep_eq, ih, List.flatMap_cons,
        List.append_assoc]

/-- C8: semantics of insert_silence on the tier found under the given
name.  With a non-interval tier it fails with the kind-mismatch error;
with an interval tier it fails with the invalid-range error whenever
start >= end or either bound leaves the tier bounds; and on a valid range
it succeeds, the named tier afterwards holding (up to the re-sort) exactly
the silence interval [start, end) with empty text plus, for each previous
interval, the interval itself when fully outside [start, end) or its
uncovered left/right parts otherwise — so fully-outside intervals are kept
verbatim and the covered portions are discarded. -/
theorem insert_silence_spec (g : TextGrid) (tierName : String) (s e : ℚ) (t : Tier)
    (ht : g.get_tier tierName = some t) :
    (t.tier_type ≠ .intervalTier →
      insert_silence g tierName s e = .err g "Can only insert silence in IntervalTier") ∧
    (t.tier_type = .intervalTier →
      (e ≤ s ∨ s < t.xmin ∨ t.xmax < s ∨ e < t.xmin ∨ t.xmax < e →
        insert_silence g tierName s e = .err g "Invalid silence bounds") ∧
      (t.xmin ≤ s → s < e → e ≤ t.xmax →
        ∃ g' t', insert_silence g tierName s e = .ok g' () ∧
          g'.get_tier tierName = some t' ∧
          t'.intervals.Perm (t.intervals.flatMap (silencePiece s e) ++ [⟨s, e, ""⟩]) ∧
          (⟨s, e, ""⟩ : Interval) ∈ t'.intervals ∧
          ∀ iv ∈ t.intervals, (iv.xmax ≤ s ∨ e ≤ iv.xmin) → iv ∈ t'.intervals)) := by
  have ht' : g.tiers.find? (fun tt => tt.name = tierName) = some t := ht
  obtain ⟨i, hi, hgd⟩ := find?_exists_findIdxAux _ dTier _ _ ht'
  have hi' : findTierIdx g tierName = some i := hi
  have hname : t.name = tierName := by simpa using List.find?_some ht'
  refine ⟨?_, ?_⟩
  · intro hk
    simp only [insert_silence, hi', hgd]
    rw [if_pos hk]
  · intro hk
    refine ⟨?_, ?_⟩
    · intro hrange
      have hcode : s < t.xmin ∨ t.xmax < e ∨ e ≤ s := by
        rcases hrange with h | h | h | h | h
        · exact Or.inr (Or.inr h)
        · exact Or.inl h
        · by_cases hse : e ≤ s
          · exact Or.inr (Or.inr hse)
          · push_neg at hse
            exact Or.inr (Or.inl (h.trans hse))
        · by_cases hse : e ≤ s
          · exact Or.inr (Or.inr hse)
          · push_neg at hse
            exact Or.inl (hse.trans h)
        · exact Or.inr (Or.inl h)
      simp only [insert_silence, hi', hgd]
      rw [if_neg (by simp [hk]), if_pos hcode]
    · intro h1 h2 h3
      have hrange : ¬ (s < t.xmin ∨ t.xmax < e ∨ e ≤ s) := by
        push_neg
        exact ⟨not_lt.1 (not_lt.2 h1), h3, h2⟩
      simp only [insert_silence, hi', hgd]
      rw [if_neg (by simp [hk]), if_neg hrange]
      refine ⟨_,
        ⟨t.name, t.tier_type, t.xmin, t.xmax,
          sort_intervals (insertSilencePieces s e t.intervals ++ [⟨s, e, ""⟩]), t.points⟩,
        rfl, ?_, ?_, ?_, ?_⟩
      · simp only [TextGrid.get_tier, save_change]
        exact find?_set_of_findIdxAux _ g.tiers i _ hi (by simp [hname])
      · exact (List.perm_insertionSort _ _).trans (by rw [insertSilencePieces_eq])
      · refine (List.perm_insertionSort (fun a b : Interval => a.xmin ≤ b.xmin)
          (insertSilencePieces s e t.intervals ++ [⟨s, e, ""⟩])).mem_iff.mpr ?_
        simp
      · intro iv hiv hout
        refine (List.perm_insertionSort (fun a b : Interval => a.xmin ≤ b.xmin)
          (insertSilencePieces s e t.intervals ++ [⟨s, e, ""⟩])).mem_iff.mpr ?_
        rw [insertSilencePieces_eq]
        refine List.mem_append.mpr (Or.inl ?_)
        exact List.mem_flatMap.mpr ⟨iv, hiv, by simp [silencePiece, hout]⟩

/-- save_change keeps the capacity and the length bound. -/
theorem inv_save_change {g : TextGrid} (c : Change) (h : Inv g) : Inv (save_change g c) := by
  obtain ⟨hm, hl⟩ := h
  refine ⟨by simp [save_change, hm], ?_⟩
  simp only [save_change, List.length_append]
  split_ifs with hfull
  · simp only [List.length_drop, List.length_cons, List.length_nil]
    omega
  · simp only [List.length_cons, List.length_nil]
    omega

/-- add_tier preserves the history invariant. -/
theorem inv_add_tier (g : TextGrid) (tier : Tier) (h : Inv g) : InvOut (add_tier g tier) := by
  unfold add_tier
  split
  · exact h
  · exact inv_save_change _ h

/-- remove_tier preserves the history invariant. -/
theorem inv_remove_tier (g : TextGrid) (i : Nat) (h : Inv g) : InvOut (remove_tier g i) := by
  unfold remove_tier
  split
  · exact h
  · exact inv_save_change _ h

/-- rename_tier preserves the history invariant. -/
theorem inv_rename_tier (g : TextGrid) (a b : String) (h : Inv g) :
    InvOut (rename_tier g a b) := by
  unfold rename_tier
  split
  · exact h
  · exact inv_save_change _ h

/-- merge_tiers_with_strategy preserves the history invariant. -/
theorem inv_merge_tiers (g : TextGrid) (a b c : String)
    (f : Interval → Interval → Option Interval) (h : Inv g) :
    InvOut (merge_tiers_with_strategy g a b c f) := by
  unfold merge_tiers_with_strategy
  split
  · exact h
  · split
    · exact h
    · split
      · exact h
      · exact inv_save_change _ h

/-- adjust_bounds preserves the history invariant. -/
theorem inv_adjust_bounds (g : TextGrid) (a b : ℚ) (h : Inv g) :
    InvOut (adjust_bounds g a b) := by
  unfold adjust_bounds
  split
  · exact h
  · split
    · exact h
    · exact inv_save_change _ h

/-- insert_silence preserves the history invariant. -/
theorem inv_insert_silence (g : TextGrid) (n : String) (s e : ℚ) (h : Inv g) :
    InvOut (insert_silence g n s e) := by
  unfold insert_silence
  split
  · exact h
  · dsimp only
    split
    · exact h
    · split
      · exact h
      · exact inv_save_change _ h

/-- tier_add_interval preserves the history invariant. -/
theorem inv_tier_add_interval (g : TextGrid) (n : String) (iv : Interval) (h : Inv g) :
    InvOut (tier_add_interval g n iv) := by
  unfold tier_add_interval
  split
  · exact h
  · split
    · exact h
    · exact inv_save_change _ h

/-- tier_remove_interval preserves the history invariant. -/
theorem inv_tier_remove_interval (g : TextGrid) (n : String) (i : Nat) (h : Inv g) :
    InvOut (tier_remove_interval g n i) := by
  unfold tier_remove_interval
  split
  · exact h
  · split
    · exact h
    · exact inv_save_change _ h

/-- tier_add_point preserves the history invariant. -/
theorem inv_tier_add_point (g : TextGrid) (n : String) (p : Point) (h : Inv g) :
    InvOut (tier_add_point g n p) := by
  unfold tier_add_point
  split
  · exact h
  · split
    · exact h
    · exact inv_save_change _ h

/-- tier_remove_point preserves the history invariant. -/
theorem inv_tier_remove_point (g : TextGrid) (n : String) (i : Nat) (h : Inv g) :
    InvOut (tier_remove_point g n i) := by
  unfold tier_remove_point
  split
  · exact h
  · split
    · exact h
    · exact inv_save_change _ h

/-- tier_split_interval preserves the history invariant. -/
theorem inv_tier_split_interval (g : TextGrid) (n : String) (i : Nat) (time : ℚ)
    (h : Inv g) : InvOut (tier_split_interval g n i time) := by
  unfold tier_split_interval
  split
  · exact h
  · dsimp only
    split
    · trivial
    · split
      · exact h
      · exact inv_save_change _ h

/-- tier_merge_intervals preserves the history invariant. -/
theorem inv_tier_merge_intervals (g : TextGrid) (n : String) (h : Inv g) :
    InvOut (tier_merge_intervals g n) := by
  unfold tier_merge_intervals
  split
  · exact h
  · split
    · exact h
    · exact inv_save_change _ h

/-- Every mutating operation preserves the history invariant. -/
theorem inv_applyOp (g : TextGrid) (o : Op) (h : Inv g) : InvOut (applyOp g o) := by
  cases o with
  | opAddTier tier => exact inv_add_tier g tier h
  | opRemoveTier i => exact inv_remove_tier g i h
  | opRenameTier a b => exact inv_rename_tier g a b h
  | opMergeTiers a b c f => exact inv_merge_tiers g a b c f h
  | opAdjustBounds a b => exact inv_adjust_bounds g a b h
  | opInsertSilence n s e => exact inv_insert_silence g n s e h
  | opAddInterval n iv => exact inv_tier_add_interval g n iv h
  | opRemoveInterval n i => exact inv_tier_remove_interval g n i h
  | opAddPoint n p => exact inv_tier_add_point g n p h
  | opRemovePoint n i => exact inv_tier_remove_point g n i h
  | opSplitInterval n i t => exact inv_tier_split_interval g n i t h
  | opMergeIntervals n => exact inv_tier_merge_intervals g n h

/-- undo preserves the history invariant (popping only shortens). -/
theorem inv_undo (g0 : TextGrid) (h : Inv g0) : InvOut (TextGrid.undo g0) := by
  have hg : Inv { g0 with history := g0.history.dropLast } := by
    refine ⟨h.1, ?_⟩
    have := h.2
    simp only [List.length_dropLast]
    omega
  unfold TextGrid.undo
  split
  · exact h
  · dsimp only
    split <;>
      (repeat' (first | trivial | exact hg | split))

/-- redo preserves the history invariant (it routes through the ops). -/
theorem inv_redo (g0 : TextGrid) (h : Inv g0) : InvOut (TextGrid.redo g0) := by
  have hg : Inv { g0 with redo_stack := g0.redo_stack.dropLast } := h
  unfold TextGrid.redo
  split
  · exact h
  · dsimp only
    split
    · exact inv_save_change _ hg
    · split
      · exact inv_save_change _ hg
      · exact hg
    · exact inv_tier_add_interval _ _ _ hg
    · exact inv_tier_remove_interval _ _ _ hg
    · exact inv_tier_add_point _ _ _ hg
    · exact inv_tier_remove_point _ _ _ hg
    · exact inv_tier_split_interval _ _ _ _ hg
    · exact inv_tier_merge_intervals _ _ hg
    · exact inv_rename_tier _ _ _ hg
    · exact inv_add_tier _ _ hg
    · exact inv_adjust_bounds _ _ _ hg
    · split
      · exact hg
      · exact inv_save_change _ hg

/-- Any single action preserves the history invariant. -/
theorem inv_runAct (g : TextGrid) (a : Act) (h : Inv g) : InvOut (runAct g a) := by
  cases a with
  | op o => exact inv_applyOp g o h
  | actUndo => exact inv_undo g h
  | actRedo => exact inv_redo g h

/-- Transfer the invariant through the state of a non-panicking outcome. -/
theorem inv_state {α : Type} {r : MOut α} {g' : TextGrid}
    (h : InvOut r) (hs : r.state = some g') : Inv g' := by
  cases r with
  | ok g v => injection hs with hs; subst hs; exact h
  | err g m => injection hs with hs; subst hs; exact h
  | panicked => simp [MOut.state] at hs

/-- The invariant holds along any action sequence. -/
theorem inv_runActs (acts : List Act) : ∀ g g', Inv g → runActs g acts = some g' → Inv g' := by
  induction acts with
  | nil =>
      intro g g' h hr
      unfold runActs at hr
      injection hr with hr
      subst hr
      exact h
  | cons a rest ih =>
      intro g g' h hr
      unfold runActs at hr
      cases hs : (runAct g a).state with
      | none => rw [hs] at hr; cases hr
      | some g1 =>
          rw [hs] at hr
          exact ih g1 g' (inv_state (inv_runAct g a h) hs) hr

/-- C5 (amended): in every document reachable from TextGrid::new through
any sequence of operations, undos and redos, the undo stack holds at most
100 changes; recording a change on a full stack drops the oldest entry and
appends the new one; and calling undo with an empty history fails with the
NothingToUndo error — so after more than 100 edits at most 100 undo calls
can consume history (though, per the counterexample, one of them may fail
with a domain error rather than succeed). -/
theorem history_bounded (xmin xmax : ℚ) (g0 g : TextGrid) (acts : List Act)
    (h0 : TextGrid.new xmin xmax = .ok g0) (hr : runActs g0 acts = some g) :
    g.history.length ≤ 100 ∧
    (∀ c, 100 ≤ g.history.length →
      (save_change g c).history = g.history.tail ++ [c]) ∧
    (g.history = [] → TextGrid.undo g = .err g "No more actions to undo") := by
  have hg0 : Inv g0 := by
    unfold TextGrid.new at h0
    split at h0
    · cases h0
    · injection h0 with h0
      subst h0
      exact ⟨rfl, by simp⟩
  have hInv : Inv g := inv_runActs acts g0 g hg0 hr
  refine ⟨hInv.2, ?_, ?_⟩
  · intro c hlen
    simp [save_change, hInv.1, hlen, List.drop_one]
  · intro hnil
    unfold TextGrid.undo
    rw [hnil]
    rfl

/-- C5 witness: the empty action sequence from a fresh document. -/
theorem history_bounded_witness :
    (TextGrid.new (0 : ℚ) 1 = .ok ⟨0, 1, [], [], [], 100⟩ ∧
      runActs ⟨0, 1, [], [], [], 100⟩ [] = some ⟨0, 1, [], [], [], 100⟩) ∧
    ((⟨0, 1, [], [], [], 100⟩ : TextGrid).history.length ≤ 100 ∧
      (∀ c, 100 ≤ (⟨0, 1, [], [], [], 100⟩ : TextGrid).history.length →
        (save_change ⟨0, 1, [], [], [], 100⟩ c).history =
          (⟨0, 1, [], [], [], 100⟩ : TextGrid).history.tail ++ [c]) ∧
      ((⟨0, 1, [], [], [], 100⟩ : TextGrid).history = [] →
        TextGrid.undo ⟨0, 1, [], [], [], 100⟩ =
          .err ⟨0, 1, [], [], [], 100⟩ "No more actions to undo")) :=
  ⟨⟨rfl, rfl⟩, history_bounded 0 1 _ _ [] rfl rfl⟩

/-- C8 witness: inserting silence over [1, 3) on a tier holding [0, 2]
with text x. -/
theorem insert_silence_spec_witness :
    c8Doc.get_tier "t" = some c8Tier ∧
      ((c8Tier.tier_type ≠ .intervalTier →
        insert_silence c8Doc "t" 1 3 = .err c8Doc "Can only insert silence in IntervalTier") ∧
      (c8Tier.tier_type = .intervalTier →
        ((3 : ℚ) ≤ 1 ∨ (1 : ℚ) < c8Tier.xmin ∨ c8Tier.xmax < 1 ∨
            (3 : ℚ) < c8Tier.xmin ∨ c8Tier.xmax < 3 →
          insert_silence c8Doc "t" 1 3 = .err c8Doc "Invalid silence bounds") ∧
        (c8Tier.xmin ≤ 1 → (1 : ℚ) < 3 → (3 : ℚ) ≤ c8Tier.xmax →
          ∃ g' t', insert_silence c8Doc "t" 1 3 = .ok g' () ∧
            g'.get_tier "t" = some t' ∧
            t'.intervals.Perm
              (c8Tier.intervals.flatMap (silencePiece 1 3) ++ [⟨1, 3, ""⟩]) ∧
            (⟨1, 3, ""⟩ : Interval) ∈ t'.intervals ∧
            ∀ iv ∈ c8Tier.intervals, (iv.xmax ≤ 1 ∨ (3 : ℚ) ≤ iv.xmin) →
              iv ∈ t'.intervals))) :=
  ⟨by decide, insert_silence_spec c8Doc "t" 1 3 c8Tier (by decide)⟩

end TG
